import Mathlib

/-!
Shallow embedding of `rtmap.py`, a script that reads radio range-test CSV
logs, filters the rows, colors point markers by SNR, aggregates a heat
layer, and hands everything to a map renderer.

Modelling conventions:
* A pandas cell is `Cell`: empty (NaN), an integer-formatted numeric
  token, a decimal-formatted numeric token, or a string.
* Column dtype follows pandas CSV inference: a non-empty column whose
  cells are all integer tokens is `int64` (its scalars are `np.int64`,
  which is NOT an instance of `int` or `float`); a column containing a
  decimal token or NaN but no string is `float64`; a column containing a
  string is `object`.  Accordingly: `.str` on a numeric-dtype column
  raises `AttributeError`; `isinstance(x, (int, float))` fails on every
  element of an `int64` column; `.between` raises `TypeError` when it
  compares a string element with a number.
* A pandas row is an association list from column name to `Cell`; a
  `DataFrame` is its column list plus its rows.
* Python exceptions are `Except PyError`; `pd.read_csv` failure on a
  source is modelled by the source carrying `none` instead of a frame.
* The regex `\d` matches the Unicode decimal-digit category `Nd`.
* Matplotlib `LinearSegmentedColormap.from_list("", [red, yellow,
  green])` is modelled by its 256-entry lookup table with clamped index,
  and `rgb2hex` by half-to-even rounding of each channel to a byte.
-/

/-- A single pandas cell: NaN, an integer-formatted number (the material
of an `int64` column), a decimal-formatted number, or a string. -/
inductive Cell where
  | missing : Cell
  | intNum : ℤ → Cell
  | floatNum : ℚ → Cell
  | str : String → Cell
deriving DecidableEq

def Cell.isMissing : Cell → Bool
  | .missing => true
  | _ => false

def Cell.isStr : Cell → Bool
  | .str _ => true
  | _ => false

def Cell.isNum : Cell → Bool
  | .intNum _ => true
  | .floatNum _ => true
  | _ => false

def Cell.num? : Cell → Option ℚ
  | .intNum z => some (z : ℚ)
  | .floatNum q => some q
  | _ => none

/-- Numeric value of a cell, for cells already known to be numeric. -/
def cellQ : Cell → ℚ
  | .intNum z => (z : ℚ)
  | .floatNum q => q
  | _ => 0

/-- One row of a frame: column name to cell. -/
abbrev Row := List (String × Cell)

/-- `row[col]`; columns absent from a row read as NaN (as after `pd.concat`). -/
def getCell (r : Row) (c : String) : Cell :=
  ((r.find? fun p => p.1 == c).map Prod.snd).getD Cell.missing

/-- A parsed tabular source: its column names and its rows. -/
structure DataFrame where
  columns : List String
  rows : List Row
deriving DecidableEq

def colPayload : String := "payload"
def colLat : String := "rx lat"
def colLong : String := "rx long"
def colSnr : String := "rx snr"
def colSender : String := "sender name"
def colElev : String := "rx elevation"

/-- The five columns selected at line 17 of the script. -/
def requiredCols : List String := [colLat, colLong, colSnr, colSender, colElev]

/-- The columns of a normal range-test log. -/
def stdCols : List String :=
  [colPayload, colLat, colLong, colSnr, colSender, colElev]

/-- Python exceptions that the script can raise. -/
inductive PyError where
  | keyError : String → PyError
  | typeError : PyError
  | attributeError : PyError
  | sourceUnreadable : PyError
  | indexError : PyError
deriving DecidableEq

/-- The codepoint ranges of the Unicode category `Nd` (decimal digits),
which is what the regex class `\d` matches on Python strings. -/
def ndRanges : List (ℕ × ℕ) :=
  [(48, 57), (1632, 1641), (1776, 1785), (1984, 1993), (2406, 2415), (2534,
   2543), (2662, 2671), (2790, 2799), (2918, 2927), (3046, 3055), (3174,
   3183), (3302, 3311), (3430, 3439), (3558, 3567), (3664, 3673), (3792,
   3801), (3872, 3881), (4160, 4169), (4240, 4249), (6112, 6121), (6160,
   6169), (6470, 6479), (6608, 6617), (6784, 6793), (6800, 6809), (6992,
   7001), (7088, 7097), (7232, 7241), (7248, 7257), (42528, 42537), (43216,
   43225), (43264, 43273), (43472, 43481), (43504, 43513), (43600, 43609),
   (44016, 44025), (65296, 65305), (66720, 66729), (68912, 68921), (69734,
   69743), (69872, 69881), (69942, 69951), (70096, 70105), (70384, 70393),
   (70736, 70745), (70864, 70873), (71248, 71257), (71360, 71369), (71472,
   71481), (71904, 71913), (72016, 72025), (72784, 72793), (73040, 73049),
   (73120, 73129), (92768, 92777), (92864, 92873), (93008, 93017), (120782,
   120831), (123200, 123209), (123632, 123641), (125264, 125273), (130032,
   130041)]

/-- Python regex `\d`: a Unicode decimal digit. -/
def isUnicodeDigit (c : Char) : Bool :=
  ndRanges.any fun p => p.1 ≤ c.toNat && c.toNat ≤ p.2

/-- Does the character list contain a match of the regex `seq \d+`? -/
def containsSeq : List Char → Bool
  | [] => false
  | c :: cs =>
      (match c :: cs with
       | 's' :: 'e' :: 'q' :: ' ' :: d :: _ => isUnicodeDigit d
       | _ => false) || containsSeq cs

/-- `df['payload'].str.contains(r'seq \d+', na=False)` applied to one
element of an object-dtype column: NaN and non-string elements give NaN
results, which `na=False` turns into `False`. -/
def payloadOK : Cell → Bool
  | .str s => containsSeq s.data
  | _ => false

/-- `dropna()` over the five selected columns, applied to one row. -/
def rowPresent (r : Row) : Bool :=
  requiredCols.all fun c => !(getCell r c).isMissing

/-- The cells of one column, in row order. -/
def colCells (df : DataFrame) (c : String) : List Cell :=
  df.rows.map fun r => getCell r c

/-- Pandas parses a CSV column as `int64` exactly when it is non-empty
and every token is an integer: no decimal point, no NaN, no string. -/
def isIntCol (df : DataFrame) (c : String) : Bool :=
  !df.rows.isEmpty && (colCells df c).all fun x =>
    match x with
    | .intNum _ => true
    | _ => false

/-- `isinstance(x, (int, float))` for one element, given whether the
element's column parsed as `int64`: `np.int64` scalars fail the check,
`np.float64` scalars and plain Python numbers pass, strings fail. -/
def isinstanceNum (intCol : Bool) (c : Cell) : Bool := !intCol && c.isNum

/-- `.between(lo, hi)` evaluated on one non-string element. -/
def betweenMask (c : Cell) (lo hi : ℚ) : Bool :=
  match c.num? with
  | some q => decide (lo ≤ q) && decide (q ≤ hi)
  | none => false

/-- Lines 13-21 of the script.  `df['payload']` raises `KeyError` when
that column is absent; `.str` raises `AttributeError` when the payload
column has numeric dtype (non-empty, without any string cell); the column
selection at line 17 raises `KeyError` on a missing column; the
`.between` masks of lines 20-21 raise `TypeError` when a string latitude
or longitude survives the earlier filters; otherwise the rows kept are
the ones passing the isinstance and range masks, where the isinstance
test fails on every element of an `int64`-parsed latitude or longitude
column. -/
def validateRows (df : DataFrame) : Except PyError (List Row) :=
  if colPayload ∈ df.columns then
    if !df.rows.isEmpty && !((colCells df colPayload).any Cell.isStr) then
      Except.error PyError.attributeError
    else if ∀ c ∈ requiredCols, c ∈ df.columns then
      if ((df.rows.filter fun r => payloadOK (getCell r colPayload)).filter
            rowPresent).any
          (fun r => (getCell r colLat).isStr || (getCell r colLong).isStr) then
        Except.error PyError.typeError
      else
        Except.ok (((df.rows.filter fun r =>
          payloadOK (getCell r colPayload)).filter rowPresent).filter fun r =>
            isinstanceNum (isIntCol df colLat) (getCell r colLat) &&
            isinstanceNum (isIntCol df colLong) (getCell r colLong) &&
            betweenMask (getCell r colLat) (-90) 90 &&
            betweenMask (getCell r colLong) (-180) 180)
    else
      Except.error (PyError.keyError
        ((requiredCols.find? fun c => !(decide (c ∈ df.columns))).getD colLat))
  else Except.error (PyError.keyError colPayload)

/-- Floor of a rational, via floored integer division. -/
def qfloor (q : ℚ) : ℤ := q.num.fdiv q.den

/-- Matplotlib `Colormap.__call__` index computation for a float input on an
`N = 256` colormap: negatives go to the under color (first entry), values
at or above 1 to the over color (last entry), otherwise `int(x * 256)`. -/
def cmapIndex (x : ℚ) : ℕ :=
  if x < 0 then 0
  else if 1 ≤ x then 255
  else (qfloor (x * 256)).toNat

/-- Entry `i` of the 256-entry lookup table built by
`LinearSegmentedColormap.from_list("", [red, yellow, green])`:
anchors red `(1,0,0)` at 0, yellow `(1,1,0)` at 1/2, green `(0,128/255,0)`
at 1, linearly interpolated at positions `i / 255`. -/
def lutColor (i : ℕ) : ℚ × ℚ × ℚ :=
  if (i : ℚ) / 255 ≤ 1 / 2 then
    (1, 2 * ((i : ℚ) / 255), 0)
  else
    (2 * (1 - (i : ℚ) / 255),
      1 - 2 * ((i : ℚ) / 255 - 1 / 2) * (127 / 255), 0)

/-- `cmap(x)` for a scalar float `x`. -/
def cmapColor (x : ℚ) : ℚ × ℚ × ℚ := lutColor (cmapIndex x)

/-- `np.round`: round half to even. -/
def roundHalfEven (q : ℚ) : ℤ :=
  if q - qfloor q < 1 / 2 then qfloor q
  else if 1 / 2 < q - qfloor q then qfloor q + 1
  else if qfloor q % 2 = 0 then qfloor q else qfloor q + 1

def hashChar : Char := '#'

/-- Two lowercase hex digits of a byte (`format(n, "02x")`). -/
def hexByte (n : ℕ) : List Char :=
  [Nat.digitChar (n / 16 % 16), Nat.digitChar (n % 16)]

/-- `int(np.round(val * 255))` for one color channel in `[0, 1]`. -/
def channelByte (v : ℚ) : ℕ := (roundHalfEven (v * 255)).toNat

/-- `matplotlib.colors.rgb2hex`. -/
def rgb2hex (c : ℚ × ℚ × ℚ) : String :=
  String.mk (hashChar ::
    (hexByte (channelByte c.1) ++ hexByte (channelByte c.2.1) ++
      hexByte (channelByte c.2.2)))

def greyHex : String := "#808080"
def redHex : String := "#ff0000"
def greenHex : String := "#008000"

/-- Lines 35 and 40-43 of the script for one marker: grey outside
`(-25, 15]`, otherwise the colormap at `(snr - (-21)) / (12 - (-21))`. -/
def map_color (snr : ℚ) : String :=
  if 15 < snr ∨ snr ≤ -25 then greyHex
  else rgb2hex (cmapColor ((snr - (-21)) / (12 - (-21))))

def slashStr : String := "/"

/-- `os.path.basename`. -/
def baseName (p : String) : String := (p.splitOn slashStr).getLastD p

def minusStr : String := "-"
def emptyStr : String := ""
def dotStr : String := "."
def zeroStr : String := "0"
def nanStr : String := "nan"

/-- Decimal digits of `n / den` after the point, up to 17 places. -/
def fracDigits : ℕ → ℕ → ℕ → List Char
  | 0, _, _ => []
  | _ + 1, 0, _ => []
  | fuel + 1, n, den => Nat.digitChar (n * 10 / den) :: fracDigits fuel (n * 10 % den) den

/-- Python's string form of a float: sign, integer part, point, fraction
(`45.0`, `3.5`, `-122.0`). -/
def showQ (q : ℚ) : String :=
  (if q < 0 then minusStr else emptyStr) ++
    toString (Int.natAbs q.num / q.den) ++ dotStr ++
    (if (fracDigits 17 (Int.natAbs q.num % q.den) q.den).isEmpty then zeroStr
     else String.mk (fracDigits 17 (Int.natAbs q.num % q.den) q.den))

/-- An f-string interpolation of one cell value: `np.int64` prints
without a decimal point, `np.float64` with one. -/
def showCell : Cell → String
  | .intNum z => (if z < 0 then minusStr else emptyStr) ++ toString z.natAbs
  | .floatNum q => showQ q
  | .str s => s
  | .missing => nanStr

/-- One `folium.CircleMarker` of the script: position, color, popup text. -/
structure Marker where
  lat : ℚ
  lon : ℚ
  color : String
  popup : String
deriving DecidableEq

/-- One `folium.FeatureGroup` holding a source's markers. -/
structure PointLayer where
  name : String
  markers : List Marker
deriving DecidableEq

def brSnr : String := "<br>SNR: "
def brElev : String := "<br>Elevation: "
def brLat : String := "<br>Latitude: "
def brLong : String := "<br>Longitude: "

/-- Lines 38-60 for one filtered row: color from SNR, popup from the base
file name and the row's SNR, elevation, latitude and longitude. -/
def mkMarker (csvFile : String) (r : Row) : Marker :=
  { lat := cellQ (getCell r colLat)
    lon := cellQ (getCell r colLong)
    color := map_color (cellQ (getCell r colSnr))
    popup := baseName csvFile ++ brSnr ++ showCell (getCell r colSnr) ++
      brElev ++ showCell (getCell r colElev) ++
      brLat ++ showCell (getCell r colLat) ++
      brLong ++ showCell (getCell r colLong) }

/-- `create_point_layer` on an already-read frame: validate rows, return
`None` when nothing is left (line 24), otherwise build the layer.  The
normalization lambda at line 35 subtracts from the SNR value, which raises
`TypeError` when a surviving SNR cell is a string. -/
def create_point_layer (csvFile : String) (df : DataFrame) :
    Except PyError (Option PointLayer) := do
  let valid ← validateRows df
  if valid.isEmpty then pure none
  else if valid.any fun r => (getCell r colSnr).isStr then
    Except.error PyError.typeError
  else
    pure (some { name := baseName csvFile, markers := valid.map (mkMarker csvFile) })

/-- One input source: its path, and its parsed frame (`none` when
`pd.read_csv` cannot open or parse it). -/
structure Source where
  path : String
  content : Option DataFrame
deriving DecidableEq

/-- `pd.read_csv` on a source. -/
def readSource (s : Source) : Except PyError DataFrame :=
  match s.content with
  | some df => Except.ok df
  | none => Except.error PyError.sourceUnreadable

/-- The raw rows a source holds; an unreadable source holds none. -/
def sourceRows (s : Source) : List Row :=
  match s.content with
  | some df => df.rows
  | none => []

/-- A Python `for` loop collecting fallible results in order; the first
exception aborts the loop. -/
def mapExcept {α β : Type} (f : α → Except PyError β) :
    List α → Except PyError (List β)
  | [] => Except.ok []
  | x :: xs => do
    let y ← f x
    let ys ← mapExcept f xs
    pure (y :: ys)

/-- One heat sample `[lat, lon, snr]` taken verbatim from a raw row. -/
structure HeatSample where
  lat : Cell
  lon : Cell
  weight : Cell
deriving DecidableEq

/-- Line 78's list element for one merged row. -/
def heatTriple (r : Row) : HeatSample :=
  ⟨getCell r colLat, getCell r colLong, getCell r colSnr⟩

/-- Column set of `pd.concat(df_list)`: union in first-seen order. -/
def unionCols (dfs : List DataFrame) : List String :=
  dfs.foldl (fun acc d => acc ++ d.columns.filter fun c => !(acc.contains c)) []

/-- Line 78: iterate the merged frame and read three columns per row.
With zero rows nothing is accessed; otherwise a missing column raises
`KeyError` on the first row. -/
def heatData (cols : List String) (rows : List Row) :
    Except PyError (List HeatSample) :=
  if rows.isEmpty then Except.ok []
  else if colLat ∉ cols then Except.error (PyError.keyError colLat)
  else if colLong ∉ cols then Except.error (PyError.keyError colLong)
  else if colSnr ∉ cols then Except.error (PyError.keyError colSnr)
  else Except.ok (rows.map heatTriple)

/-- Pandas `Series.mean()`: skip NaN, average the numeric cells, NaN (here
`none`) when no numeric cell remains. -/
def meanNums (cells : List Cell) : Option ℚ :=
  if (cells.filterMap Cell.num?).isEmpty then none
  else some ((cells.filterMap Cell.num?).sum / ((cells.filterMap Cell.num?).length : ℚ))

/-- `df[c].mean()`: a missing column raises `KeyError`; an object column
still holding strings raises `TypeError`. -/
def colMean (df : DataFrame) (c : String) : Except PyError (Option ℚ) :=
  if c ∈ df.columns then
    if (df.rows.map fun r => getCell r c).any Cell.isStr then
      Except.error PyError.typeError
    else Except.ok (meanNums (df.rows.map fun r => getCell r c))
  else Except.error (PyError.keyError c)

/-- What the script hands to folium: the initial view center, the heat
samples, and the per-source point layers actually emitted. -/
structure Artifact where
  center : Option ℚ × Option ℚ
  heat : List HeatSample
  layers : List PointLayer
deriving DecidableEq

/-- `create_map_with_layers`: center from the raw first frame (lines
66-67), heat data from the unfiltered concatenation of all frames (lines
71-78), then one optional point layer per source (lines 148-151).  Any
exception anywhere aborts the whole call. -/
def create_map_with_layers : List Source → Except PyError Artifact
  | [] => Except.error PyError.indexError
  | s0 :: rest => do
    let df0 ← readSource s0
    let latM ← colMean df0 colLat
    let lonM ← colMean df0 colLong
    let dfs ← mapExcept readSource (s0 :: rest)
    let heat ← heatData (unionCols dfs) (dfs.map DataFrame.rows).flatten
    let layers ← mapExcept
      (fun s => do
        let df ← readSource s
        create_point_layer s.path df)
      (s0 :: rest)
    pure { center := (latM, lonM), heat := heat, layers := layers.filterMap id }

/-- Run-level outcomes of `__main__`. -/
inductive RunError where
  | noSources : RunError
  | pyErr : PyError → RunError
deriving DecidableEq

/-- The `__main__` block: exit with a diagnostic when the directory scan
found no CSV files, otherwise build the map. -/
def mainRun (sources : List Source) : Except RunError Artifact :=
  if sources.isEmpty then Except.error RunError.noSources
  else (create_map_with_layers sources).mapError RunError.pyErr

def sSeq1 : String := "seq 1"
def sNoSeq : String := "hello there"
def sOops : String := "oops"
def sNode : String := "node1"
def sBadSnr : String := "n/a"
def pathA : String := "logs/log1.csv"
def pathB : String := "logs/log2.csv"

/-- Build a row with the six standard columns. -/
def mkRow (p la lo sn sndr el : Cell) : Row :=
  [(colPayload, p), (colLat, la), (colLong, lo), (colSnr, sn),
    (colSender, sndr), (colElev, el)]

/-- A fully valid telemetry row at latitude 10.0. -/
def exRowValid : Row :=
  mkRow (Cell.str sSeq1) (Cell.floatNum 10) (Cell.floatNum 0) (Cell.floatNum 0)
    (Cell.str sNode) (Cell.floatNum 0)

/-- Payload matches, all fields present, but the latitude is a string. -/
def exRowStrLat : Row :=
  mkRow (Cell.str sSeq1) (Cell.str sOops) (Cell.floatNum 0) (Cell.floatNum 0)
    (Cell.str sNode) (Cell.floatNum 0)

/-- Payload text carries no `seq <digits>` marker; latitude 30.0. -/
def exRowBadPayload : Row :=
  mkRow (Cell.str sNoSeq) (Cell.floatNum 30) (Cell.floatNum 0) (Cell.floatNum 0)
    (Cell.str sNode) (Cell.floatNum 0)

/-- Payload matches and the row passes the filter, but its SNR cell is a
string. -/
def exRowStrSnr : Row :=
  mkRow (Cell.str sSeq1) (Cell.floatNum 10) (Cell.floatNum 0) (Cell.str sBadSnr)
    (Cell.str sNode) (Cell.floatNum 0)

/-- A second filter-passing row with a string SNR cell, at latitude 11.0. -/
def exRowStrSnrB : Row :=
  mkRow (Cell.str sSeq1) (Cell.floatNum 11) (Cell.floatNum 0) (Cell.str sBadSnr)
    (Cell.str sNode) (Cell.floatNum 0)

/-- A valid-looking row whose latitude token is the integer `45`: a CSV
whose latitude column holds only such tokens parses as `int64`. -/
def exRowIntLat : Row :=
  mkRow (Cell.str sSeq1) (Cell.intNum 45) (Cell.floatNum 0) (Cell.floatNum 0)
    (Cell.str sNode) (Cell.floatNum 0)

/-- A row whose payload cell is numeric: a payload column made only of
such cells (or NaN) has numeric dtype. -/
def exRowNumPayload : Row :=
  mkRow (Cell.floatNum 7) (Cell.floatNum 10) (Cell.floatNum 0) (Cell.floatNum 0)
    (Cell.str sNode) (Cell.floatNum 0)

/-- The worked example of the spec: lat 45.0, lon -122.0, snr 3.5,
elevation 120. -/
def exRowSpec : Row :=
  mkRow (Cell.str sSeq1) (Cell.floatNum 45) (Cell.floatNum (-122))
    (Cell.floatNum (7 / 2)) (Cell.str sNode) (Cell.intNum 120)

/-- One valid row plus one row dropped by the payload filter. -/
def exDfAB : DataFrame := ⟨stdCols, [exRowValid, exRowBadPayload]⟩

/-- A single row whose latitude cell is the string `oops`. -/
def exDfStrLat : DataFrame := ⟨stdCols, [exRowStrLat]⟩

/-- A frame whose latitude column parses as `int64`. -/
def exDfIntLat : DataFrame := ⟨stdCols, [exRowIntLat]⟩

/-- A frame whose payload column has numeric dtype. -/
def exDfNumPayload : DataFrame := ⟨stdCols, [exRowNumPayload]⟩

/-- A single row dropped by the payload filter: zero valid samples. -/
def exDfEmptyValid : DataFrame := ⟨stdCols, [exRowBadPayload]⟩

/-- A one-row frame whose only valid row has a string SNR cell. -/
def exDfStrSnr : DataFrame := ⟨stdCols, [exRowStrSnr]⟩

/-- A two-row frame, both rows valid, both with string SNR cells. -/
def exDfStrSnr2 : DataFrame := ⟨stdCols, [exRowStrSnr, exRowStrSnrB]⟩

/-- The spec's worked popup example as a one-row frame. -/
def exDfSpec : DataFrame := ⟨stdCols, [exRowSpec]⟩

/-- A readable frame that has no `payload` column at all. -/
def exDfNoPayloadCol : DataFrame :=
  ⟨[colLat, colLong], [[(colLat, Cell.floatNum 1), (colLong, Cell.floatNum 2)]]⟩

def srcA : Source := ⟨pathA, some exDfAB⟩
def srcB : Source := ⟨pathB, none⟩
def srcC : Source := ⟨pathB, some exDfEmptyValid⟩

/-- Two readable sources; the second yields zero valid samples. -/
def exSourcesAC : List Source := [srcA, srcC]

/-- A readable source followed by an unreadable one. -/
def exSourcesAB : List Source := [srcA, srcB]

/-- Just the readable two-row source. -/
def exSourcesA : List Source := [srcA]

def defaultArtifact : Artifact := ⟨(none, none), [], []⟩

/-- The artifact the script produces for `exSourcesAC`. -/
def exArtAC : Artifact :=
  (create_map_with_layers exSourcesAC).toOption.getD defaultArtifact

/-- The artifact the script produces for `exSourcesA`. -/
def exArtA : Artifact :=
  (create_map_with_layers exSourcesA).toOption.getD defaultArtifact


/-- Just the readable zero-valid-sample source. -/
def exSourcesC : List Source := [srcC]

/-- The artifact the script produces for `exSourcesC`. -/
def exArtC : Artifact :=
  (create_map_with_layers exSourcesC).toOption.getD defaultArtifact

/-- The latitude cells of a frame, in row order. -/
def latCellsOf (df : DataFrame) : List Cell :=
  df.rows.map fun r => getCell r colLat

/-- The longitude cells of a frame, in row order. -/
def lonCellsOf (df : DataFrame) : List Cell :=
  df.rows.map fun r => getCell r colLong

/-- `sub` occurs contiguously inside `hay`. -/
def strContains (hay sub : String) : Prop := sub.data <:+: hay.data

instance (hay sub : String) : Decidable (strContains hay sub) := by
  unfold strContains; infer_instance

/-! Helper lemmas about the `Except` plumbing. -/

theorem exceptBind_ok {α β : Type} {e : Except PyError α}
    {f : α → Except PyError β} {b : β} :
    (e >>= f) = Except.ok b ↔ ∃ a, e = Except.ok a ∧ f a = Except.ok b := by
  cases e with
  | error err => simp [Bind.bind, Except.bind]
  | ok a => simp [Bind.bind, Except.bind]

theorem exceptPure_ok {α : Type} {a b : α} :
    (pure a : Except PyError α) = Except.ok b ↔ a = b := by
  simp [pure, Except.pure]

theorem mapExcept_ok_mem {α β : Type} {f : α → Except PyError β} :
    ∀ {xs : List α} {ys : List β}, mapExcept f xs = Except.ok ys →
      ∀ x ∈ xs, ∃ y, f x = Except.ok y := by
  intro xs
  induction xs with
  | nil => intro ys _ x hx; cases hx
  | cons a as ih =>
      intro ys h x hx
      rw [mapExcept] at h
      rcases exceptBind_ok.mp h with ⟨y, hy, h2⟩
      rcases exceptBind_ok.mp h2 with ⟨ys2, hys, _⟩
      cases hx with
      | head => exact ⟨y, hy⟩
      | tail _ hmem => exact ih hys x hmem

theorem readSource_ok {s : Source} {df : DataFrame}
    (h : readSource s = Except.ok df) : s.content = some df := by
  cases hc : s.content with
  | none => rw [readSource, hc] at h; cases h
  | some d => rw [readSource, hc] at h; cases h; rfl

theorem mapExcept_read_rows :
    ∀ {xs : List Source} {ys : List DataFrame},
      mapExcept readSource xs = Except.ok ys →
      ys.map DataFrame.rows = xs.map sourceRows := by
  intro xs
  induction xs with
  | nil => intro ys h; rw [mapExcept] at h; cases h; rfl
  | cons a as ih =>
      intro ys h
      rw [mapExcept] at h
      rcases exceptBind_ok.mp h with ⟨y, hy, h2⟩
      rcases exceptBind_ok.mp h2 with ⟨ys2, hys, h3⟩
      rw [exceptPure_ok] at h3
      subst h3
      have ha : sourceRows a = y.rows := by
        rw [sourceRows, readSource_ok hy]
      simp [ha, ih hys]

theorem heatData_ok {cols : List String} {rows : List Row}
    {h : List HeatSample} (hh : heatData cols rows = Except.ok h) :
    h = rows.map heatTriple := by
  unfold heatData at hh
  split at hh
  · next he =>
      cases hh
      rw [List.isEmpty_iff.mp he]
      rfl
  · split at hh
    · cases hh
    · split at hh
      · cases hh
      · split at hh
        · cases hh
        · cases hh; rfl

theorem colMean_ok {df : DataFrame} {c : String} {v : Option ℚ}
    (h : colMean df c = Except.ok v) :
    v = meanNums (df.rows.map fun r => getCell r c) := by
  unfold colMean at h
  split at h
  · split at h
    · cases h
    · cases h; rfl
  · cases h

/-! Helper lemmas about strings and colors. -/

theorem strData_append (a b : String) : (a ++ b).data = a.data ++ b.data := rfl

theorem strContains_self (s : String) : strContains s s :=
  ⟨[], [], by simp⟩

theorem strContains_append_right (a b sub : String)
    (h : strContains a sub) : strContains (a ++ b) sub := by
  rcases h with ⟨s, t, hst⟩
  exact ⟨s, t ++ b.data, by rw [strData_append, ← hst]; simp⟩

theorem strContains_append_left (a b sub : String)
    (h : strContains b sub) : strContains (a ++ b) sub := by
  rcases h with ⟨s, t, hst⟩
  exact ⟨a.data ++ s, t, by rw [strData_append, ← hst]; simp⟩

theorem lut_blue_eq_zero (i : ℕ) : (lutColor i).2.2 = 0 := by
  unfold lutColor
  split <;> rfl

theorem rgb2hex_ne_grey (c : ℚ × ℚ × ℚ) (hb : c.2.2 = 0) :
    rgb2hex c ≠ greyHex := by
  intro h
  unfold rgb2hex at h
  have hd := congrArg String.data h
  rw [hb] at hd
  have hz : hexByte (channelByte 0) = [Nat.digitChar 0, Nat.digitChar 0] := by
    with_unfolding_all decide
  have hg : greyHex.data = [hashChar, Nat.digitChar 8, Nat.digitChar 0,
      Nat.digitChar 8, Nat.digitChar 0, Nat.digitChar 8, Nat.digitChar 0] := by decide
  rw [hz, hg] at hd
  simp only [hexByte, List.cons_append, List.nil_append] at hd
  have h5 := congrArg (List.drop 5) hd
  simp only [List.drop_succ_cons, List.drop_zero] at h5
  exact absurd (List.head_eq_of_cons_eq h5) (by decide)

/-- Claim C5: `map_color` is total on finite SNR inputs and returns the
fixed sentinel `#808080` exactly when `snr > 15` or `snr ≤ -25`; in
particular at 16 and at -30, while no snr in `(-25, 15]` maps to the
sentinel. -/
theorem c5_sentinel_color :
    (∀ snr : ℚ, 15 < snr ∨ snr ≤ -25 → map_color snr = greyHex) ∧
    map_color 16 = greyHex ∧ map_color (-30) = greyHex ∧
    (∀ snr : ℚ, -25 < snr → snr ≤ 15 → map_color snr ≠ greyHex) := by
  refine ⟨fun snr h => ?_, by with_unfolding_all decide,
    by with_unfolding_all decide, fun snr h1 h2 => ?_⟩
  · rw [map_color, if_pos h]
  · rw [map_color, if_neg (not_or.mpr ⟨not_lt.mpr h2, not_le.mpr h1⟩)]
    exact rgb2hex_ne_grey _ (lut_blue_eq_zero _)

/-- Witness for C5 at snr 20 (sentinel) and snr 0 (not sentinel). -/
theorem c5_sentinel_witness : map_color 20 = greyHex ∧ map_color 0 ≠ greyHex :=
  ⟨c5_sentinel_color.1 20 (Or.inl (by norm_num)),
    c5_sentinel_color.2.2.2 0 (by norm_num) (by norm_num)⟩

/-- Claim C6: inside `(-25, 15]` the color is the red-yellow-green colormap
evaluated at `(snr - (-21)) / (12 - (-21))`, rendered as hex; the clamp
bounds give pure red at -21 and pure green (`#008000`) at 12. -/
theorem c6_gradient_endpoints :
    (∀ snr : ℚ, -25 < snr → snr ≤ 15 →
      map_color snr = rgb2hex (cmapColor ((snr - (-21)) / (12 - (-21))))) ∧
    map_color (-21) = redHex ∧ map_color 12 = greenHex := by
  refine ⟨fun snr h1 h2 => ?_, by with_unfolding_all decide,
    by with_unfolding_all decide⟩
  rw [map_color, if_neg (not_or.mpr ⟨not_lt.mpr h2, not_le.mpr h1⟩)]

/-- Witness for C6 at snr 0. -/
theorem c6_gradient_witness :
    map_color 0 = rgb2hex (cmapColor ((0 - (-21)) / (12 - (-21)))) :=
  c6_gradient_endpoints.1 0 (by norm_num) (by norm_num)

/-- Counterexample to C1 as stated, three ways.  A record whose payload
matches and whose fields are all present, but whose latitude is the
string `oops`, makes the filter raise `TypeError` instead of silently
dropping the row.  A record with a matching payload, all fields present
and latitude 45 in an integer-parsed column yields NO ValidSample (the
`np.int64` fails `isinstance`), although the claim's conditions all hold
of it.  A frame whose payload column is numeric raises `AttributeError`
at line 16 instead of dropping the non-matching rows silently. -/
theorem c1_string_latitude_raises :
    validateRows exDfStrLat = Except.error PyError.typeError ∧
    validateRows exDfIntLat = Except.ok [] ∧
    payloadOK (getCell exRowIntLat colPayload) = true ∧
    rowPresent exRowIntLat = true ∧
    betweenMask (getCell exRowIntLat colLat) (-90) 90 = true ∧
    betweenMask (getCell exRowIntLat colLong) (-180) 180 = true ∧
    validateRows exDfNumPayload = Except.error PyError.attributeError := by
  refine ⟨by with_unfolding_all rfl, by with_unfolding_all rfl,
    by with_unfolding_all rfl, by with_unfolding_all rfl,
    by with_unfolding_all decide, by with_unfolding_all decide,
    by with_unfolding_all rfl⟩

/-- Claim C1 (amended): provided the payload column holds at least one
string cell (so it is object dtype and line 16's `.str` does not raise
`AttributeError`), no latitude or longitude cell is a string (so line
20's `.between` does not raise `TypeError`), and the latitude and
longitude columns are not parsed as `int64` (whose `np.int64` elements
all fail line 18's `isinstance`, silently dropping every row): a row
survives the filter iff its payload text contains a `seq <digits>`
marker, the five required fields are all non-missing, and latitude and
longitude are numeric and inside [-90, 90] resp. [-180, 180]; all
dropped rows are dropped without any error. -/
theorem c1_filter_iff (df : DataFrame)
    (hp : colPayload ∈ df.columns)
    (hc : ∀ c ∈ requiredCols, c ∈ df.columns)
    (hobj : (colCells df colPayload).any Cell.isStr = true ∨ df.rows = [])
    (hs : ∀ r ∈ df.rows,
      (getCell r colLat).isStr = false ∧ (getCell r colLong).isStr = false)
    (hlat : isIntCol df colLat = false)
    (hlong : isIntCol df colLong = false) :
    ∃ vs, validateRows df = Except.ok vs ∧
      ∀ r, r ∈ vs ↔ r ∈ df.rows ∧
        payloadOK (getCell r colPayload) = true ∧
        (∀ c ∈ requiredCols, (getCell r c).isMissing = false) ∧
        betweenMask (getCell r colLat) (-90) 90 = true ∧
        betweenMask (getCell r colLong) (-180) 180 = true := by
  unfold validateRows
  rw [if_pos hp]
  have hattr : (!df.rows.isEmpty &&
      !((colCells df colPayload).any Cell.isStr)) = false := by
    rcases hobj with h | h
    · simp [h]
    · simp [h]
  rw [if_neg (by simp only [hattr]; simp), if_pos hc]
  have hany : (((df.rows.filter fun r => payloadOK (getCell r colPayload)).filter
      rowPresent).any
      fun r => (getCell r colLat).isStr || (getCell r colLong).isStr) = false := by
    rw [List.any_eq_false]
    intro r hr
    have hmem : r ∈ df.rows :=
      List.mem_of_mem_filter (List.mem_of_mem_filter hr)
    rcases hs r hmem with ⟨h1, h2⟩
    simp [h1, h2]
  rw [if_neg (by simp only [hany]; simp), hlat, hlong]
  have hfilter : ∀ l : List Row, (l.filter fun r =>
      isinstanceNum false (getCell r colLat) &&
      isinstanceNum false (getCell r colLong) &&
      betweenMask (getCell r colLat) (-90) 90 &&
      betweenMask (getCell r colLong) (-180) 180) =
      l.filter fun r =>
        betweenMask (getCell r colLat) (-90) 90 &&
        betweenMask (getCell r colLong) (-180) 180 := by
    intro l
    apply List.filter_congr
    intro r _
    cases hla : getCell r colLat <;> cases hlo : getCell r colLong <;>
      simp [isinstanceNum, betweenMask, Cell.isNum, Cell.num?]
  rw [hfilter]
  refine ⟨_, rfl, fun r => ?_⟩
  simp only [List.mem_filter, rowPresent, List.all_eq_true,
    Bool.and_eq_true, Bool.not_eq_true', and_assoc]

/-- Witness for C1 on a two-row frame: applying the amended filter theorem
yields the validated subsequence. -/
theorem c1_filter_witness : ∃ vs, validateRows exDfAB = Except.ok vs := by
  obtain ⟨vs, h, _⟩ := c1_filter_iff exDfAB (by decide) (by decide)
    (Or.inl (by decide)) (by decide) (by decide) (by decide)
  exact ⟨vs, h⟩

/-- Counterexample to C7 as stated: a source whose single ValidSample
carries a string SNR cell (SNR is never type-checked by lines 16-21)
makes line 35's normalization subtraction raise `TypeError`, so the
builder returns neither `Some` nor `None` for it. -/
theorem c7_string_snr_raises :
    validateRows exDfStrSnr = Except.ok [exRowStrSnr] ∧
    create_point_layer pathA exDfStrSnr = Except.error PyError.typeError := by
  refine ⟨by with_unfolding_all rfl, by with_unfolding_all rfl⟩

/-- Claim C7 (amended): for sources whose validated samples all carry
numeric SNR cells, the builder returns no layer exactly when the valid
sequence is empty, and returns a layer otherwise; the empty outcome is an
ordinary `None`, not an exception.  When a valid row's SNR is a string,
line 35 raises `TypeError` instead (see the counterexample). -/
theorem c7_some_iff_nonempty (path : String) (df : DataFrame) (vs : List Row)
    (hv : validateRows df = Except.ok vs)
    (hs : ∀ r ∈ vs, (getCell r colSnr).isStr = false) :
    (create_point_layer path df = Except.ok none ↔ vs = []) ∧
    (vs ≠ [] → ∃ l, create_point_layer path df = Except.ok (some l)) := by
  unfold create_point_layer
  rw [hv]
  have hbind : ∀ (k : List Row → Except PyError (Option PointLayer)),
      (Except.ok vs >>= k) = k vs := fun _ => rfl
  rw [hbind]
  cases he : vs.isEmpty
  · have hne : vs ≠ [] := by
      intro h
      rw [h] at he
      cases he
    have hany : (vs.any fun r => (getCell r colSnr).isStr) = false := by
      rw [List.any_eq_false]
      intro r hr
      simp [hs r hr]
    rw [if_neg (by simp [he]), if_neg (by simp only [hany]; simp)]
    constructor
    · constructor
      · intro h
        rw [exceptPure_ok] at h
        cases h
      · intro h
        exact absurd h hne
    · intro _
      exact ⟨_, rfl⟩
  · have hnil : vs = [] := List.isEmpty_iff.mp he
    rw [if_pos (by simp [he])]
    constructor
    · simp [exceptPure_ok, hnil]
    · intro h
      exact absurd hnil h

/-- Witness for C7: the two-row frame yields one valid row, hence a layer. -/
theorem c7_layer_witness :
    ∃ l, create_point_layer pathA exDfAB = Except.ok (some l) :=
  (c7_some_iff_nonempty pathA exDfAB [exRowValid]
    (by with_unfolding_all rfl) (by decide)).2 (by decide)

/-- Counterexample to C8 as stated: a source with two valid rows whose
SNR cells are strings produces no markers at all - line 35 raises
`TypeError` before any marker is built, instead of yielding a two-marker
layer. -/
theorem c8_string_snr_no_markers :
    validateRows exDfStrSnr2 = Except.ok [exRowStrSnr, exRowStrSnrB] ∧
    create_point_layer pathA exDfStrSnr2 = Except.error PyError.typeError := by
  refine ⟨by with_unfolding_all rfl, by with_unfolding_all rfl⟩

/-- Claim C8 (amended): with N valid rows, all of whose SNR cells are
numeric, the produced layer holds exactly the N markers obtained from the
rows in input order, and each marker's popup text contains the source's
base file name and the row's SNR, elevation, latitude and longitude
renderings as literal substrings.  A string SNR among the valid rows
makes line 35 raise `TypeError` and no markers are produced (see the
counterexample). -/
theorem c8_markers_order_popup (path : String) (df : DataFrame) (vs : List Row)
    (hv : validateRows df = Except.ok vs) (hne : vs ≠ [])
    (hs : ∀ r ∈ vs, (getCell r colSnr).isStr = false) :
    ∃ l, create_point_layer path df = Except.ok (some l) ∧
      l.markers = vs.map (mkMarker path) ∧
      l.markers.length = vs.length ∧
      ∀ r ∈ vs,
        strContains (mkMarker path r).popup (baseName path) ∧
        strContains (mkMarker path r).popup (showCell (getCell r colSnr)) ∧
        strContains (mkMarker path r).popup (showCell (getCell r colElev)) ∧
        strContains (mkMarker path r).popup (showCell (getCell r colLat)) ∧
        strContains (mkMarker path r).popup (showCell (getCell r colLong)) := by
  have hcp : create_point_layer path df =
      Except.ok (some { name := baseName path, markers := vs.map (mkMarker path) }) := by
    unfold create_point_layer
    rw [hv]
    have hbind : ∀ (k : List Row → Except PyError (Option PointLayer)),
        (Except.ok vs >>= k) = k vs := fun _ => rfl
    rw [hbind]
    have hie : vs.isEmpty = false := by
      cases hh : vs.isEmpty
      · rfl
      · exact absurd (List.isEmpty_iff.mp hh) hne
    have hany : (vs.any fun r => (getCell r colSnr).isStr) = false := by
      rw [List.any_eq_false]
      intro r hr
      simp [hs r hr]
    rw [if_neg (by simp [hie]), if_neg (by simp only [hany]; simp)]
    rfl
  refine ⟨_, hcp, rfl, by simp, fun r _ => ?_⟩
  have hpop : (mkMarker path r).popup =
      baseName path ++ brSnr ++ showCell (getCell r colSnr) ++
        brElev ++ showCell (getCell r colElev) ++
        brLat ++ showCell (getCell r colLat) ++
        brLong ++ showCell (getCell r colLong) := rfl
  rw [hpop]
  refine ⟨?_, ?_, ?_, ?_, ?_⟩
  · exact strContains_append_right _ _ _ (strContains_append_right _ _ _
      (strContains_append_right _ _ _ (strContains_append_right _ _ _
      (strContains_append_right _ _ _ (strContains_append_right _ _ _
      (strContains_append_right _ _ _ (strContains_append_right _ _ _
      (strContains_self _))))))))
  · exact strContains_append_right _ _ _ (strContains_append_right _ _ _
      (strContains_append_right _ _ _ (strContains_append_right _ _ _
      (strContains_append_right _ _ _ (strContains_append_right _ _ _
      (strContains_append_left _ _ _ (strContains_self _)))))))
  · exact strContains_append_right _ _ _ (strContains_append_right _ _ _
      (strContains_append_right _ _ _ (strContains_append_right _ _ _
      (strContains_append_left _ _ _ (strContains_self _)))))
  · exact strContains_append_right _ _ _ (strContains_append_right _ _ _
      (strContains_append_left _ _ _ (strContains_self _)))
  · exact strContains_append_left _ _ _ (strContains_self _)

/-- Witness for C8 on the spec's worked example row. -/
theorem c8_popup_witness :
    ∃ l, create_point_layer pathA exDfSpec = Except.ok (some l) ∧
      l.markers = [mkMarker pathA exRowSpec] := by
  obtain ⟨l, h1, h2, _⟩ := c8_markers_order_popup pathA exDfSpec [exRowSpec]
    (by with_unfolding_all rfl) (by decide) (by decide)
  exact ⟨l, h1, h2⟩

/-- Counterexample to C2 as stated: a run over one readable source whose
single row fails validation still yields one heat sample, while the
source has zero valid samples. -/
theorem c2_heat_counterexample :
    create_map_with_layers exSourcesC = Except.ok exArtC ∧
    exArtC.heat.length = 1 ∧
    validateRows exDfEmptyValid = Except.ok [] := by
  refine ⟨by with_unfolding_all rfl, by with_unfolding_all rfl,
    by with_unfolding_all rfl⟩

/-- Claim C2 (amended): whenever the run succeeds, the heat-sample
sequence is the concatenation, in source order and within-source row
order, of ALL raw rows of every source (no validator filtering), each
carrying the raw SNR cell as weight; its length is the sum of the raw
row counts. -/
theorem c2_heat_from_raw_rows (sources : List Source) (a : Artifact)
    (h : create_map_with_layers sources = Except.ok a) :
    a.heat = ((sources.map sourceRows).flatten).map heatTriple ∧
    a.heat.length = ((sources.map fun s => (sourceRows s).length).sum) := by
  cases sources with
  | nil => exact absurd h (by rw [create_map_with_layers]; intro hh; cases hh)
  | cons s0 rest =>
      rw [create_map_with_layers] at h
      rcases exceptBind_ok.mp h with ⟨df0, h0, h⟩
      rcases exceptBind_ok.mp h with ⟨latM, h1, h⟩
      rcases exceptBind_ok.mp h with ⟨lonM, h2, h⟩
      rcases exceptBind_ok.mp h with ⟨dfs, h3, h⟩
      rcases exceptBind_ok.mp h with ⟨heat, h4, h⟩
      rcases exceptBind_ok.mp h with ⟨layers, h5, h⟩
      rw [exceptPure_ok] at h
      subst h
      have hrows := mapExcept_read_rows h3
      have hheat := heatData_ok h4
      rw [hrows] at hheat
      constructor
      · exact hheat
      · rw [hheat, List.length_map, List.length_flatten, List.map_map]
        rfl

/-- Witness for C2: the two-readable-source run's heat layer is the raw
concatenation. -/
theorem c2_heat_witness :
    exArtAC.heat = ((exSourcesAC.map sourceRows).flatten).map heatTriple :=
  (c2_heat_from_raw_rows exSourcesAC exArtAC (by with_unfolding_all rfl)).1

/-- Counterexample to C3 as stated: one readable source followed by one
unreadable source makes the whole run raise instead of producing an
artifact from the readable source. -/
theorem c3_unreadable_counterexample :
    create_map_with_layers exSourcesAB = Except.error PyError.sourceUnreadable := by
  with_unfolding_all rfl

/-- Claim C3 (amended): an unreadable source is fatal for the whole run,
not just for that source — an artifact is produced only when every source
in the list is readable. -/
theorem c3_unreadable_aborts (sources : List Source) (a : Artifact)
    (h : create_map_with_layers sources = Except.ok a) :
    ∀ s ∈ sources, s.content ≠ none := by
  cases sources with
  | nil => intro s hs; cases hs
  | cons s0 rest =>
      rw [create_map_with_layers] at h
      rcases exceptBind_ok.mp h with ⟨df0, h0, h⟩
      rcases exceptBind_ok.mp h with ⟨latM, h1, h⟩
      rcases exceptBind_ok.mp h with ⟨lonM, h2, h⟩
      rcases exceptBind_ok.mp h with ⟨dfs, h3, _⟩
      intro s hs hnone
      rcases mapExcept_ok_mem h3 s hs with ⟨df, hdf⟩
      rw [readSource, hnone] at hdf
      cases hdf

/-- Witness for C3: from the successful all-readable run, the first
source is readable. -/
theorem c3_abort_witness : srcA.content ≠ none :=
  c3_unreadable_aborts exSourcesAC exArtAC (by with_unfolding_all rfl)
    srcA (by decide)

/-- Counterexample to C4 as stated: the first source has one valid row
(latitude 10) and one payload-dropped row (latitude 30); the artifact's
center is the raw mean 20, not the ValidSample mean 10. -/
theorem c4_center_counterexample :
    create_map_with_layers exSourcesA = Except.ok exArtA ∧
    validateRows exDfAB = Except.ok [exRowValid] ∧
    exArtA.center = (some 20, some 0) ∧
    meanNums [getCell exRowValid colLat] = some 10 ∧
    exArtA.center ≠
      (meanNums [getCell exRowValid colLat], meanNums [getCell exRowValid colLong]) := by
  refine ⟨by with_unfolding_all rfl, by with_unfolding_all rfl,
    by with_unfolding_all rfl, by with_unfolding_all rfl, ?_⟩
  intro h
  have h1 := congrArg Prod.fst h
  have h2 : (some (20 : ℚ) : Option ℚ) = some 10 := by
    refine Eq.trans ?_ (Eq.trans h1 ?_) <;> with_unfolding_all rfl
  rw [Option.some.injEq] at h2
  have h3 : (20 : ℚ) ≠ 10 := by norm_num
  exact h3 h2

/-- Claim C4 (amended): the initial view center is the pair of pandas
column means over ALL raw rows of the first source (NaN cells skipped),
not over its validated subset; no other source contributes. -/
theorem c4_center_raw_mean (s0 : Source) (rest : List Source)
    (df0 : DataFrame) (a : Artifact)
    (hr : s0.content = some df0)
    (h : create_map_with_layers (s0 :: rest) = Except.ok a) :
    a.center = (meanNums (latCellsOf df0), meanNums (lonCellsOf df0)) := by
  rw [create_map_with_layers] at h
  rcases exceptBind_ok.mp h with ⟨df0x, h0, h⟩
  have hdf : df0x = df0 := by
    rw [readSource, hr] at h0
    cases h0
    rfl
  subst hdf
  rcases exceptBind_ok.mp h with ⟨latM, h1, h⟩
  rcases exceptBind_ok.mp h with ⟨lonM, h2, h⟩
  rcases exceptBind_ok.mp h with ⟨dfs, h3, h⟩
  rcases exceptBind_ok.mp h with ⟨heat, h4, h⟩
  rcases exceptBind_ok.mp h with ⟨layers, h5, h⟩
  rw [exceptPure_ok] at h
  subst h
  rw [colMean_ok h1, colMean_ok h2]
  rfl

/-- Witness for C4: the single-source run's center equals the raw-row
column means of that source. -/
theorem c4_center_witness :
    exArtA.center = (meanNums (latCellsOf exDfAB), meanNums (lonCellsOf exDfAB)) :=
  c4_center_raw_mean srcA [] exDfAB exArtA (by rfl) (by with_unfolding_all rfl)

/-- Claim C9: a run over zero sources fails with the no-sources
diagnostic and produces no artifact, and this is the only source-count
condition that is fatal at init: no non-empty source list ever yields the
no-sources failure. -/
theorem c9_no_sources_fatal :
    mainRun [] = Except.error RunError.noSources ∧
    ∀ sources : List Source, sources ≠ [] →
      mainRun sources ≠ Except.error RunError.noSources := by
  refine ⟨rfl, fun sources hne h => ?_⟩
  rw [mainRun, if_neg (by simp [List.isEmpty_iff]; exact hne)] at h
  cases hc : create_map_with_layers sources with
  | error e =>
      rw [hc] at h
      rw [Except.mapError] at h
      cases h
  | ok a =>
      rw [hc] at h
      rw [Except.mapError] at h
      cases h

/-- Witness for C9: the singleton source list does not fail with the
no-sources error. -/
theorem c9_nonempty_witness :
    mainRun exSourcesA ≠ Except.error RunError.noSources :=
  c9_no_sources_fatal.2 exSourcesA (by decide)

/-- Claim C10: a readable source that lacks the `payload` column entirely
makes point-layer creation raise `KeyError` (no silent drop), and hence a
successful run certifies that every readable source had a `payload`
column. -/
theorem c10_missing_payload_column :
    (∀ (path : String) (df : DataFrame), colPayload ∉ df.columns →
      create_point_layer path df = Except.error (PyError.keyError colPayload)) ∧
    (∀ (sources : List Source) (a : Artifact),
      create_map_with_layers sources = Except.ok a →
      ∀ s ∈ sources, ∀ df, s.content = some df → colPayload ∈ df.columns) := by
  have hkey : ∀ (path : String) (df : DataFrame), colPayload ∉ df.columns →
      create_point_layer path df = Except.error (PyError.keyError colPayload) := by
    intro path df hnp
    unfold create_point_layer validateRows
    rw [if_neg hnp]
    rfl
  refine ⟨hkey, fun sources a h s hs df hdf => ?_⟩
  by_contra hnp
  cases sources with
  | nil => cases hs
  | cons s0 rest =>
      rw [create_map_with_layers] at h
      rcases exceptBind_ok.mp h with ⟨df0, h0, h⟩
      rcases exceptBind_ok.mp h with ⟨latM, h1, h⟩
      rcases exceptBind_ok.mp h with ⟨lonM, h2, h⟩
      rcases exceptBind_ok.mp h with ⟨dfs, h3, h⟩
      rcases exceptBind_ok.mp h with ⟨heat, h4, h⟩
      rcases exceptBind_ok.mp h with ⟨layers, h5, _⟩
      rcases mapExcept_ok_mem h5 s hs with ⟨y, hy⟩
      rcases exceptBind_ok.mp hy with ⟨dfx, hdfx, hcp⟩
      rw [readSource, hdf] at hdfx
      cases hdfx
      rw [hkey s.path df hnp] at hcp
      cases hcp

/-- Witness for C10: a frame holding only coordinate columns raises the
payload `KeyError`. -/
theorem c10_missing_payload_witness :
    create_point_layer pathA exDfNoPayloadCol =
      Except.error (PyError.keyError colPayload) :=
  c10_missing_payload_column.1 pathA exDfNoPayloadCol (by decide)
